import Mathlib

/-!
# Verification of the dyncon runtime-configuration utility

Shallow embedding of the repository's configuration pipeline:

* `docker-entrypoint.sh` — the Materializer: generates `config.js` from the
  environment variables `API_URL`, `ENVIRONMENT`, `ENABLE_FEATURE_X` using
  shell default substitution `${VAR:-default}` (modelled in namespace
  `Entrypoint`).
* `utils/config.ts` — `DEFAULT_CONFIG`, `validateConfig`, `getConfig`
  (modelled in namespace `Config`).
* `utils/useConfig.ts` — the duplicated `DEFAULT_CONFIG` / `validateConfig`,
  `getClientConfig`, and the `useConfig` hook's two-state lifecycle
  (modelled in namespace `UseConfig`).

JavaScript dynamic values are modelled by the inductive `JSValue`; property
access on `null`/`undefined` throws a `TypeError`, modelled by
`Except Unit`.  Numbers are modelled as integers: the claims under study
only inspect `typeof` and truthiness of numbers, never float arithmetic.
-/

/-- A JavaScript runtime value, as far as the configuration code inspects it:
`undefined`, `null`, booleans, numbers, strings and plain objects.  An object
is represented by its fields as an association list (first match wins; the
objects appearing in this development have pairwise distinct keys). -/
inductive JSValue where
  | undefined : JSValue
  | null : JSValue
  | bool : Bool → JSValue
  | num : Int → JSValue
  | str : String → JSValue
  | obj : List (String × JSValue) → JSValue
deriving Repr

/-- The JavaScript `typeof` operator.  Note `typeof null` is `"object"`. -/
def jsTypeof : JSValue → String
  | .undefined => "undefined"
  | .null => "object"
  | .bool _ => "boolean"
  | .num _ => "number"
  | .str _ => "string"
  | .obj _ => "object"

/-- JavaScript truthiness: `undefined`, `null`, `false`, `0` and `""` are
falsy; every object is truthy. -/
def truthy : JSValue → Bool
  | .undefined => false
  | .null => false
  | .bool b => b
  | .num n => decide (n ≠ 0)
  | .str s => decide (s ≠ "")
  | .obj _ => true

/-- Field lookup in an object's field list; a missing key reads as
`undefined`, as in JavaScript. -/
def lookupD : List (String × JSValue) → String → JSValue
  | [], _ => .undefined
  | (k', v) :: rest, k => if k' = k then v else lookupD rest k

/-- Total projection `v.k`, defined as `undefined` on every non-object
(used only to state theorems; the throwing behaviour is in `getField`). -/
def fieldD : JSValue → String → JSValue
  | .obj fs, k => lookupD fs k
  | _, _ => .undefined

/-- Recognizer for the JavaScript value `null`. -/
def isNull : JSValue → Bool
  | .null => true
  | _ => false

/-- JavaScript property access `base.k`: throws a `TypeError` when the base
is `null` or `undefined`; on other primitives it reads as `undefined`. -/
def getField : JSValue → String → Except Unit JSValue
  | .undefined, _ => .error ()
  | .null, _ => .error ()
  | .obj fs, k => .ok (lookupD fs k)
  | _, _ => .ok .undefined

namespace Config

/-- `utils/config.ts` — `DEFAULT_CONFIG`. -/
def DEFAULT_CONFIG : JSValue :=
  .obj [("apiUrl", .str "https://default.example.com"),
        ("environment", .str "default"),
        ("features", .obj [("enableFeatureX", .bool false)])]

/-- `utils/config.ts` — `validateConfig`.  The source is a single
short-circuiting conjunction
`typeof config === 'object' && typeof config.apiUrl === 'string' && ...`;
each property access can throw when its base is `null` (whose `typeof` is
`"object"`), so the result lives in `Except Unit Bool`. -/
def validateConfig (config : JSValue) : Except Unit Bool :=
  if jsTypeof config = "object" then
    match getField config "apiUrl" with
    | .error e => .error e
    | .ok a =>
      if jsTypeof a = "string" then
        match getField config "environment" with
        | .error e => .error e
        | .ok en =>
          if jsTypeof en = "string" then
            match getField config "features" with
            | .error e => .error e
            | .ok f =>
              if jsTypeof f = "object" then
                match getField f "enableFeatureX" with
                | .error e => .error e
                | .ok x => .ok (jsTypeof x = "boolean")
              else .ok false
          else .ok false
      else .ok false
  else .ok false

/-- Models `process.env.X || d`: `undefined` (unset) and the empty string
are falsy, so both fall back to `d`. -/
def jsOr (v : Option String) (d : JSValue) : JSValue :=
  match v with
  | none => d
  | some s => if s = "" then d else .str s

/-- `utils/config.ts` — `getConfig`.  `window` is `none` on the server-side
path (no browser global object) and `some wc` on the client, where `wc` is
the value of `window.__APP_CONFIG__` (`JSValue.undefined` when the binding
is absent).  The three `Option String` arguments are
`process.env.NEXT_PUBLIC_API_URL`, `process.env.NODE_ENV` and
`process.env.NEXT_PUBLIC_ENABLE_FEATURE_X`.  The second component of the
result records the console messages emitted on the client path. -/
def getConfig (window : Option JSValue)
    (napiUrl nodeEnv nffx : Option String) :
    Except Unit (JSValue × List String) :=
  match window with
  | some windowConfig =>
    if truthy windowConfig then
      match validateConfig windowConfig with
      | .error e => .error e
      | .ok true => .ok (windowConfig, ["Valid runtime config loaded:"])
      | .ok false =>
          .ok (DEFAULT_CONFIG, ["Invalid or missing runtime config, using fallback"])
    else .ok (DEFAULT_CONFIG, ["Invalid or missing runtime config, using fallback"])
  | none =>
    .ok (.obj [("apiUrl", jsOr napiUrl (fieldD DEFAULT_CONFIG "apiUrl")),
               ("environment", jsOr nodeEnv (fieldD DEFAULT_CONFIG "environment")),
               ("features", .obj [("enableFeatureX", .bool (decide (nffx = some "true")))])],
         [])

/-- The configuration value `getConfig` returns on the client path, logs
projected away. -/
def getConfigClientValue (wc : JSValue) : Except Unit JSValue :=
  (getConfig (some wc) none none none).map Prod.fst

/-- The exact condition under which the client path throws: the binding is
truthy, of `typeof` `"object"`, its `apiUrl` and `environment` are strings,
and its `features` field is exactly `null` (whose `typeof` is `"object"`,
so validation goes on to access `features.enableFeatureX` and throws). -/
def clientThrows (wc : JSValue) : Bool :=
  truthy wc
    && decide (jsTypeof wc = "object")
    && decide (jsTypeof (fieldD wc "apiUrl") = "string")
    && decide (jsTypeof (fieldD wc "environment") = "string")
    && isNull (fieldD wc "features")

end Config

namespace UseConfig

/-- `utils/useConfig.ts` — the `DEFAULT_CONFIG` duplicated into the hook
module ("duplicated here to avoid hydration issues"). -/
def DEFAULT_CONFIG : JSValue :=
  .obj [("apiUrl", .str "https://default.example.com"),
        ("environment", .str "default"),
        ("features", .obj [("enableFeatureX", .bool false)])]

/-- `utils/useConfig.ts` — the `validateConfig` duplicated into the hook
module; textually the same short-circuiting conjunction as the one in
`utils/config.ts`. -/
def validateConfig (config : JSValue) : Except Unit Bool :=
  if jsTypeof config = "object" then
    match getField config "apiUrl" with
    | .error e => .error e
    | .ok a =>
      if jsTypeof a = "string" then
        match getField config "environment" with
        | .error e => .error e
        | .ok en =>
          if jsTypeof en = "string" then
            match getField config "features" with
            | .error e => .error e
            | .ok f =>
              if jsTypeof f = "object" then
                match getField f "enableFeatureX" with
                | .error e => .error e
                | .ok x => .ok (jsTypeof x = "boolean")
              else .ok false
          else .ok false
      else .ok false
  else .ok false

/-- `utils/useConfig.ts` — `getClientConfig`.  `window` is `none` when no
browser global object exists; otherwise `some wc` with `wc` the value of
`window.__APP_CONFIG__`.  When the binding is truthy and valid it is
returned verbatim; in every other case control falls through to
`return DEFAULT_CONFIG`. -/
def getClientConfig (window : Option JSValue) : Except Unit JSValue :=
  match window with
  | some windowConfig =>
    if truthy windowConfig then
      match validateConfig windowConfig with
      | .error e => .error e
      | .ok true => .ok windowConfig
      | .ok false => .ok DEFAULT_CONFIG
    else .ok DEFAULT_CONFIG
  | none => .ok DEFAULT_CONFIG

/-- The `useConfig` hook's per-page-load state: the currently held
configuration and whether the one-shot post-hydration effect has run. -/
structure HookState where
  config : JSValue
  hydrated : Bool
deriving Repr

/-- `useState<AppConfig>(DEFAULT_CONFIG)`: the state of a fresh hook
before the effect fires. -/
def hookInit : HookState := ⟨DEFAULT_CONFIG, false⟩

/-- What the hook returns on a render: the currently held state value. -/
def hookRender (s : HookState) : JSValue := s.config

/-- The `useEffect(…, [])` body: runs `setConfig(getClientConfig())` once
after the first render.  The empty dependency array means the effect never
fires a second time, modelled by the `hydrated` guard making any further
invocation a no-op. -/
def hookHydrate (window : Option JSValue) (s : HookState) :
    Except Unit HookState :=
  if s.hydrated then .ok s
  else
    match getClientConfig window with
    | .error e => .error e
    | .ok c => .ok ⟨c, true⟩

end UseConfig

namespace Entrypoint

/-- Shell parameter expansion `${VAR:-default}` as used in
`docker-entrypoint.sh`: the default is substituted when the variable is
unset or empty, otherwise the variable's literal text is substituted. -/
def shellDefault (v : Option String) (d : String) : String :=
  match v with
  | none => d
  | some s => if s = "" then d else s

/-- The token written after `apiUrl: '` in the generated `config.js`:
`${API_URL:-https://default.example.com}`. -/
def emittedApiUrl (v : Option String) : String :=
  shellDefault v "https://default.example.com"

/-- The token written after `environment: '` in the generated `config.js`:
`${ENVIRONMENT:-production}`. -/
def emittedEnvironment (v : Option String) : String :=
  shellDefault v "production"

/-- The token written after `enableFeatureX: ` in the generated
`config.js`: `${ENABLE_FEATURE_X:-false}`, a plain textual substitution —
whatever text the variable holds is emitted verbatim (unquoted). -/
def emittedFlagToken (v : Option String) : String :=
  shellDefault v "false"

/-- Executing the generated `config.js` in the browser: the script is a
single assignment of an object literal to `window.__APP_CONFIG__`.  The two
string fields are single-quoted, so they evaluate to the substituted text;
the flag position holds the raw substituted token, which evaluates to a
boolean only when it is literally `true` or `false`.  Any other token is
not modelled (`some` other texts are identifiers, which raise a
`ReferenceError`, others are non-boolean literals), so the result is `none`
outside the two boolean cases. -/
def runConfigScript (apiUrlVar envVar flagVar : Option String) :
    Option JSValue :=
  let tok := emittedFlagToken flagVar
  if tok = "true" then
    some (.obj [("apiUrl", .str (emittedApiUrl apiUrlVar)),
                ("environment", .str (emittedEnvironment envVar)),
                ("features", .obj [("enableFeatureX", .bool true)])])
  else if tok = "false" then
    some (.obj [("apiUrl", .str (emittedApiUrl apiUrlVar)),
                ("environment", .str (emittedEnvironment envVar)),
                ("features", .obj [("enableFeatureX", .bool false)])])
  else none

end Entrypoint

theorem jsTypeof_undefined : jsTypeof JSValue.undefined = "undefined" := rfl

theorem jsTypeof_null : jsTypeof JSValue.null = "object" := rfl

theorem jsTypeof_bool (b : Bool) : jsTypeof (JSValue.bool b) = "boolean" := rfl

theorem jsTypeof_num (n : Int) : jsTypeof (JSValue.num n) = "number" := rfl

theorem jsTypeof_str (s : String) : jsTypeof (JSValue.str s) = "string" := rfl

theorem jsTypeof_obj (fs : List (String × JSValue)) :
    jsTypeof (JSValue.obj fs) = "object" := rfl

theorem getField_obj (fs : List (String × JSValue)) (k : String) :
    getField (JSValue.obj fs) k = .ok (lookupD fs k) := rfl

theorem truthy_obj (fs : List (String × JSValue)) :
    truthy (JSValue.obj fs) = true := rfl

/-- C5: when the browser-global binding is absent (reading
`window.__APP_CONFIG__` yields `undefined`), `getConfig` returns the
hardcoded default configuration. -/
theorem getConfig_absent_returns_default :
    Config.getConfigClientValue JSValue.undefined = .ok Config.DEFAULT_CONFIG := rfl

/-- C1 (counterexample): with `ENABLE_FEATURE_X=yes`, the flag token
emitted into the generated `config.js` is the raw text `yes`, not `false`
— the claim that any text other than `"true"` emits `false` is wrong. -/
theorem emittedFlagToken_yes_not_false :
    Entrypoint.emittedFlagToken (some "yes") ≠ "false" := by decide

/-- C1 (amended): `${ENABLE_FEATURE_X:-false}` is plain shell default
substitution.  Unset or empty emits the token `false`; any non-empty text
is emitted verbatim — so exactly `"true"` emits `true`, but other text
such as `"yes"` emits that text unchanged (not `false`). -/
theorem emittedFlagToken_substitution :
    Entrypoint.emittedFlagToken none = "false" ∧
    Entrypoint.emittedFlagToken (some "") = "false" ∧
    Entrypoint.emittedFlagToken (some "true") = "true" ∧
    (∀ t : String, t ≠ "" → Entrypoint.emittedFlagToken (some t) = t) := by
  refine ⟨rfl, by decide, by decide, fun t ht => ?_⟩
  simp [Entrypoint.emittedFlagToken, Entrypoint.shellDefault, ht]

/-- C1 (witness for the amended theorem): at the concrete text `"yes"` the
emitted token is `"yes"` itself. -/
theorem emittedFlagToken_substitution_witness :
    Entrypoint.emittedFlagToken (some "yes") = "yes" :=
  emittedFlagToken_substitution.2.2.2 "yes" (by decide)

/-- C9 (counterexample): the diagnostic emitted when the binding is absent
(`undefined`) and the diagnostic emitted when the binding is present but
structurally invalid (here the truthy but empty object) are the identical
message, so the diagnostic does not note which of the two cases occurred. -/
theorem fallback_diag_same_message :
    Config.getConfig (some JSValue.undefined) none none none
      = .ok (Config.DEFAULT_CONFIG,
             ["Invalid or missing runtime config, using fallback"]) ∧
    Config.getConfig (some (JSValue.obj [])) none none none
      = .ok (Config.DEFAULT_CONFIG,
             ["Invalid or missing runtime config, using fallback"]) :=
  ⟨rfl, rfl⟩

/-- C9 (amended): whenever the browser-side accessor falls back to the
default — the binding being falsy or failing structural validation — it
emits the single fixed diagnostic `Invalid or missing runtime config,
using fallback`, identical in both cases; the two cases are not
distinguished. -/
theorem fallback_diag_uniform (wc : JSValue)
    (h : truthy wc = false ∨ Config.validateConfig wc = .ok false) :
    Config.getConfig (some wc) none none none
      = .ok (Config.DEFAULT_CONFIG,
             ["Invalid or missing runtime config, using fallback"]) := by
  rcases h with h | h
  · simp [Config.getConfig, h]
  · by_cases ht : truthy wc <;> simp [Config.getConfig, ht, h]

/-- C9 (witness for the amended theorem): the `null` binding is falsy, and
the accessor emits exactly the fixed fallback diagnostic on it. -/
theorem fallback_diag_uniform_witness :
    Config.getConfig (some JSValue.null) none none none
      = .ok (Config.DEFAULT_CONFIG,
             ["Invalid or missing runtime config, using fallback"]) :=
  fallback_diag_uniform JSValue.null (Or.inl rfl)

/-- C10: the hardcoded default and the structural validator duplicated in
the hook module are extensionally equal to the ones in the accessor
module: the defaults are the same value and the validators agree on every
input (including the thrown-versus-returned outcome). -/
theorem hook_duplicates_extensionally_equal :
    UseConfig.DEFAULT_CONFIG = Config.DEFAULT_CONFIG ∧
    ∀ v : JSValue, UseConfig.validateConfig v = Config.validateConfig v :=
  ⟨rfl, fun _ => rfl⟩

/-- C7: for well-formed variable sets (the flag unset or exactly `true`),
executing the Materializer's generated file binds the global to the object
of mapped/defaulted values; in particular the all-unset scenario yields
the documented default object and the dev scenario yields the dev object. -/
theorem materializer_roundtrip :
    (∀ a e f : Option String, f = none ∨ f = some "true" →
      Entrypoint.runConfigScript a e f
        = some (.obj [("apiUrl", .str (Entrypoint.emittedApiUrl a)),
                      ("environment", .str (Entrypoint.emittedEnvironment e)),
                      ("features",
                       .obj [("enableFeatureX", .bool (decide (f = some "true")))])])) ∧
    Entrypoint.runConfigScript none none none
      = some (.obj [("apiUrl", .str "https://default.example.com"),
                    ("environment", .str "production"),
                    ("features", .obj [("enableFeatureX", .bool false)])]) ∧
    Entrypoint.runConfigScript (some "https://dev.example.com")
        (some "development") (some "true")
      = some (.obj [("apiUrl", .str "https://dev.example.com"),
                    ("environment", .str "development"),
                    ("features", .obj [("enableFeatureX", .bool true)])]) := by
  refine ⟨fun a e f hf => ?_, rfl, rfl⟩
  rcases hf with rfl | rfl <;>
    simp [Entrypoint.runConfigScript, Entrypoint.emittedFlagToken,
          Entrypoint.shellDefault]

/-- C7 (witness): the round-trip theorem applied at the dev scenario. -/
theorem materializer_roundtrip_witness :
    Entrypoint.runConfigScript (some "https://dev.example.com")
        (some "development") (some "true")
      = some (.obj [("apiUrl",
                     .str (Entrypoint.emittedApiUrl (some "https://dev.example.com"))),
                    ("environment",
                     .str (Entrypoint.emittedEnvironment (some "development"))),
                    ("features",
                     .obj [("enableFeatureX",
                            .bool (decide ((some "true" : Option String) = some "true")))])]) :=
  materializer_roundtrip.1 (some "https://dev.example.com") (some "development")
    (some "true") (Or.inr rfl)

/-- C6: the hook returns the hardcoded default on its first render
regardless of the binding; after its single hydration step it returns
exactly what `getClientConfig` returned, and running the effect again on
the hydrated state is a no-op (it never reverts or updates again). -/
theorem useConfig_two_phase (w : Option JSValue) :
    UseConfig.hookRender UseConfig.hookInit = UseConfig.DEFAULT_CONFIG ∧
    ∀ s : UseConfig.HookState,
      UseConfig.hookHydrate w UseConfig.hookInit = .ok s →
        UseConfig.getClientConfig w = .ok (UseConfig.hookRender s) ∧
        UseConfig.hookHydrate w s = .ok s := by
  refine ⟨rfl, fun s hs => ?_⟩
  unfold UseConfig.hookHydrate at hs
  simp only [UseConfig.hookInit, Bool.false_eq_true, if_false] at hs
  cases hgc : UseConfig.getClientConfig w with
  | error e => rw [hgc] at hs; cases hs
  | ok c =>
    rw [hgc] at hs
    cases hs
    exact ⟨rfl, rfl⟩

/-- C6 (witness): with no browser window the hydration step lands in the
state holding the default, and the two conclusions hold there. -/
theorem useConfig_two_phase_witness :
    UseConfig.getClientConfig none
      = .ok (UseConfig.hookRender ⟨UseConfig.DEFAULT_CONFIG, true⟩) ∧
    UseConfig.hookHydrate none ⟨UseConfig.DEFAULT_CONFIG, true⟩
      = .ok ⟨UseConfig.DEFAULT_CONFIG, true⟩ :=
  (useConfig_two_phase none).2 ⟨UseConfig.DEFAULT_CONFIG, true⟩ rfl

/-- C4: when the binding is an object passing structural validation
(`apiUrl` and `environment` are strings, `features.enableFeatureX` is a
boolean), `getConfig` returns the binding itself verbatim — the very same
value, extra unrecognized fields included, with no mutation. -/
theorem getConfig_valid_verbatim (fs : List (String × JSValue))
    (h1 : jsTypeof (lookupD fs "apiUrl") = "string")
    (h2 : jsTypeof (lookupD fs "environment") = "string")
    (h3 : jsTypeof (lookupD fs "features") = "object")
    (h4 : jsTypeof (fieldD (lookupD fs "features") "enableFeatureX") = "boolean") :
    Config.getConfigClientValue (.obj fs) = .ok (.obj fs) := by
  cases hf : lookupD fs "features" with
  | null => rw [hf] at h4; simp [fieldD, jsTypeof_undefined] at h4
  | obj gs =>
    rw [hf] at h4
    simp only [fieldD] at h4
    simp [Config.getConfigClientValue, Config.getConfig, Except.map, truthy_obj,
          Config.validateConfig, getField_obj, jsTypeof_obj, h1, h2, hf, h4]
  | undefined => rw [hf] at h3; simp [jsTypeof_undefined] at h3
  | bool b => rw [hf] at h3; simp [jsTypeof_bool] at h3
  | num n => rw [hf] at h3; simp [jsTypeof_num] at h3
  | str s => rw [hf] at h3; simp [jsTypeof_str] at h3

/-- C4 (witness): a concrete valid binding carrying an extra unrecognized
field comes back verbatim, the extra field preserved. -/
theorem getConfig_valid_verbatim_witness :
    Config.getConfigClientValue
        (.obj [("apiUrl", .str "https://x"), ("environment", .str "y"),
               ("features", .obj [("enableFeatureX", .bool true)]),
               ("extra", .num 5)])
      = .ok (.obj [("apiUrl", .str "https://x"), ("environment", .str "y"),
                   ("features", .obj [("enableFeatureX", .bool true)]),
                   ("extra", .num 5)]) :=
  getConfig_valid_verbatim _ rfl rfl rfl rfl

/-- C3: when the binding is an object missing the feature-flag mapping (or
holding it at a wrong primitive type), or with a required field of the
wrong primitive type, `getConfig` returns the hardcoded default in full —
never a partially merged value. -/
theorem getConfig_invalid_returns_default (fs : List (String × JSValue))
    (h : jsTypeof (lookupD fs "apiUrl") ≠ "string" ∨
         jsTypeof (lookupD fs "environment") ≠ "string" ∨
         jsTypeof (lookupD fs "features") ≠ "object" ∨
         (∃ gs, lookupD fs "features" = .obj gs ∧
                jsTypeof (lookupD gs "enableFeatureX") ≠ "boolean")) :
    Config.getConfigClientValue (.obj fs) = .ok Config.DEFAULT_CONFIG := by
  by_cases ha : jsTypeof (lookupD fs "apiUrl") = "string"
  case neg =>
    simp [Config.getConfigClientValue, Config.getConfig, Except.map, truthy_obj,
          Config.validateConfig, getField_obj, jsTypeof_obj, ha]
  case pos =>
  by_cases he : jsTypeof (lookupD fs "environment") = "string"
  case neg =>
    simp [Config.getConfigClientValue, Config.getConfig, Except.map, truthy_obj,
          Config.validateConfig, getField_obj, jsTypeof_obj, ha, he]
  case pos =>
  rcases h with h | h | h | ⟨gs, hgs, hx⟩
  · exact absurd ha h
  · exact absurd he h
  · cases hf : lookupD fs "features" with
    | null => rw [hf] at h; simp [jsTypeof_null] at h
    | obj gs => rw [hf] at h; simp [jsTypeof_obj] at h
    | undefined =>
      simp [Config.getConfigClientValue, Config.getConfig, Except.map, truthy_obj,
            Config.validateConfig, getField_obj, jsTypeof_obj,
            jsTypeof_undefined, ha, he, hf]
    | bool b =>
      simp [Config.getConfigClientValue, Config.getConfig, Except.map, truthy_obj,
            Config.validateConfig, getField_obj, jsTypeof_obj,
            jsTypeof_bool, ha, he, hf]
    | num n =>
      simp [Config.getConfigClientValue, Config.getConfig, Except.map, truthy_obj,
            Config.validateConfig, getField_obj, jsTypeof_obj,
            jsTypeof_num, ha, he, hf]
    | str s =>
      simp [Config.getConfigClientValue, Config.getConfig, Except.map, truthy_obj,
            Config.validateConfig, getField_obj, jsTypeof_obj,
            jsTypeof_str, ha, he, hf]
  · simp [Config.getConfigClientValue, Config.getConfig, Except.map, truthy_obj,
          Config.validateConfig, getField_obj, jsTypeof_obj, ha, he, hgs, hx]

/-- C3 (witness): the spec's scenario — a binding with `apiUrl` and
`environment` but no `features` — yields the hardcoded default in full. -/
theorem getConfig_invalid_returns_default_witness :
    Config.getConfigClientValue
        (.obj [("apiUrl", .str "https://x"), ("environment", .str "y")])
      = .ok Config.DEFAULT_CONFIG :=
  getConfig_invalid_returns_default _ (Or.inr (Or.inr (Or.inl (by decide))))

/-- C8: on the server path (no browser window) `getConfig` takes no
binding at all and builds the value from the process environment variables
at invocation time: each field equals the variable's value when set (the
flag by exact comparison with `"true"`), and falls back to the
corresponding field of the hardcoded default when its variable is unset. -/
theorem getConfig_server_env (a n e : Option String) :
    ∃ fs, Config.getConfig none a n e = .ok (.obj fs, []) ∧
      (a = none → lookupD fs "apiUrl" = fieldD Config.DEFAULT_CONFIG "apiUrl") ∧
      (n = none → lookupD fs "environment" = fieldD Config.DEFAULT_CONFIG "environment") ∧
      (e = none → lookupD fs "features" = fieldD Config.DEFAULT_CONFIG "features") ∧
      (∀ s, a = some s → s ≠ "" → lookupD fs "apiUrl" = .str s) ∧
      (∀ s, n = some s → s ≠ "" → lookupD fs "environment" = .str s) ∧
      lookupD fs "features"
        = .obj [("enableFeatureX", .bool (decide (e = some "true")))] := by
  refine ⟨_, rfl, ?_, ?_, ?_, ?_, ?_, ?_⟩
  · rintro rfl; rfl
  · rintro rfl; rfl
  · rintro rfl; rfl
  · rintro s rfl hs; simp [lookupD, Config.jsOr, hs]
  · rintro s rfl hs; simp [lookupD, Config.jsOr, hs]
  · rfl

/-- C8 (witness): with every variable unset, each emitted field equals the
corresponding field of the hardcoded default. -/
theorem getConfig_server_env_witness :
    ∃ fs, Config.getConfig none none none none = .ok (.obj fs, []) ∧
      lookupD fs "apiUrl" = fieldD Config.DEFAULT_CONFIG "apiUrl" ∧
      lookupD fs "environment" = fieldD Config.DEFAULT_CONFIG "environment" ∧
      lookupD fs "features" = fieldD Config.DEFAULT_CONFIG "features" := by
  obtain ⟨fs, h0, h1, h2, h3, _⟩ := getConfig_server_env none none none
  exact ⟨fs, h0, h1 rfl, h2 rfl, h3 rfl⟩

/-- C2 (counterexample): a binding with string `apiUrl` and `environment`
but `features` exactly `null` makes `getConfig` throw — `typeof null` is
`"object"`, so validation reaches `config.features.enableFeatureX` and the
property access on `null` raises a `TypeError`.  The claimed "never
throws" is wrong. -/
theorem getConfig_throws_on_null_features :
    Config.getConfigClientValue
        (.obj [("apiUrl", .str "https://x"), ("environment", .str "y"),
               ("features", JSValue.null)]) = .error () := rfl

/-- C2 (amended): the browser-side accessor throws exactly on the
`clientThrows` bindings (truthy, `typeof` `"object"`, string `apiUrl` and
`environment`, `features` literally `null`); on every other binding it
never throws and returns either the binding itself or the hardcoded
default. -/
theorem getConfig_throw_characterization (wc : JSValue) :
    (Config.getConfigClientValue wc = .error () ↔ Config.clientThrows wc = true) ∧
    (Config.clientThrows wc = false →
       Config.getConfigClientValue wc = .ok wc ∨
       Config.getConfigClientValue wc = .ok Config.DEFAULT_CONFIG) := by
  cases wc with
  | undefined =>
    exact ⟨by simp [Config.getConfigClientValue, Config.getConfig, truthy,
                    Config.clientThrows, Except.map], fun _ => Or.inr rfl⟩
  | null =>
    exact ⟨by simp [Config.getConfigClientValue, Config.getConfig, truthy,
                    Config.clientThrows, Except.map], fun _ => Or.inr rfl⟩
  | bool b =>
    cases b with
    | false =>
      exact ⟨by simp [Config.getConfigClientValue, Config.getConfig, truthy,
                      Config.clientThrows, Except.map], fun _ => Or.inr rfl⟩
    | true =>
      exact ⟨by simp [Config.getConfigClientValue, Config.getConfig, truthy,
                      Config.validateConfig, jsTypeof, Config.clientThrows,
                      Except.map], fun _ => Or.inr rfl⟩
  | num n =>
    constructor
    · by_cases hn : n = 0 <;>
        simp [Config.getConfigClientValue, Config.getConfig, truthy,
              Config.validateConfig, jsTypeof, Config.clientThrows,
              Except.map, hn]
    · refine fun _ => Or.inr ?_
      by_cases hn : n = 0 <;>
        simp [Config.getConfigClientValue, Config.getConfig, truthy,
              Config.validateConfig, jsTypeof, Except.map, hn]
  | str s =>
    constructor
    · by_cases hs : s = "" <;>
        simp [Config.getConfigClientValue, Config.getConfig, truthy,
              Config.validateConfig, jsTypeof, Config.clientThrows,
              Except.map, hs]
    · refine fun _ => Or.inr ?_
      by_cases hs : s = "" <;>
        simp [Config.getConfigClientValue, Config.getConfig, truthy,
              Config.validateConfig, jsTypeof, Except.map, hs]
  | obj fs =>
    by_cases ha : jsTypeof (lookupD fs "apiUrl") = "string"
    case neg =>
      have hv : Config.validateConfig (.obj fs) = .ok false := by
        simp [Config.validateConfig, getField_obj, jsTypeof_obj, ha]
      have hct : Config.clientThrows (.obj fs) = false := by
        simp [Config.clientThrows, fieldD, ha]
      refine ⟨?_, fun _ => Or.inr ?_⟩ <;>
        simp [Config.getConfigClientValue, Config.getConfig, truthy_obj,
              hv, hct, Except.map]
    case pos =>
    by_cases he : jsTypeof (lookupD fs "environment") = "string"
    case neg =>
      have hv : Config.validateConfig (.obj fs) = .ok false := by
        simp [Config.validateConfig, getField_obj, jsTypeof_obj, ha, he]
      have hct : Config.clientThrows (.obj fs) = false := by
        simp [Config.clientThrows, fieldD, he]
      refine ⟨?_, fun _ => Or.inr ?_⟩ <;>
        simp [Config.getConfigClientValue, Config.getConfig, truthy_obj,
              hv, hct, Except.map]
    case pos =>
    cases hf : lookupD fs "features" with
    | null =>
      have hv : Config.validateConfig (.obj fs) = .error () := by
        simp [Config.validateConfig, getField_obj, jsTypeof_obj, ha, he, hf,
              jsTypeof_null, getField]
      have hct : Config.clientThrows (.obj fs) = true := by
        simp [Config.clientThrows, truthy_obj, jsTypeof_obj, fieldD,
              ha, he, hf, isNull]
      refine ⟨?_, fun hcf => ?_⟩
      · simp [Config.getConfigClientValue, Config.getConfig, truthy_obj,
              hv, hct, Except.map]
      · rw [hct] at hcf; cases hcf
    | obj gs =>
      have hct : Config.clientThrows (.obj fs) = false := by
        simp [Config.clientThrows, fieldD, hf, isNull]
      by_cases hx : jsTypeof (lookupD gs "enableFeatureX") = "boolean"
      case pos =>
        have hv : Config.validateConfig (.obj fs) = .ok true := by
          simp [Config.validateConfig, getField_obj, jsTypeof_obj, ha, he,
                hf, hx]
        refine ⟨?_, fun _ => Or.inl ?_⟩ <;>
          simp [Config.getConfigClientValue, Config.getConfig, truthy_obj,
                hv, hct, Except.map]
      case neg =>
        have hv : Config.validateConfig (.obj fs) = .ok false := by
          simp [Config.validateConfig, getField_obj, jsTypeof_obj, ha, he,
                hf, hx]
        refine ⟨?_, fun _ => Or.inr ?_⟩ <;>
          simp [Config.getConfigClientValue, Config.getConfig, truthy_obj,
                hv, hct, Except.map]
    | undefined =>
      have hv : Config.validateConfig (.obj fs) = .ok false := by
        simp [Config.validateConfig, getField_obj, jsTypeof_obj, ha, he, hf,
              jsTypeof_undefined]
      have hct : Config.clientThrows (.obj fs) = false := by
        simp [Config.clientThrows, fieldD, hf, isNull]
      refine ⟨?_, fun _ => Or.inr ?_⟩ <;>
        simp [Config.getConfigClientValue, Config.getConfig, truthy_obj,
              hv, hct, Except.map]
    | bool b =>
      have hv : Config.validateConfig (.obj fs) = .ok false := by
        simp [Config.validateConfig, getField_obj, jsTypeof_obj, ha, he, hf,
              jsTypeof_bool]
      have hct : Config.clientThrows (.obj fs) = false := by
        simp [Config.clientThrows, fieldD, hf, isNull]
      refine ⟨?_, fun _ => Or.inr ?_⟩ <;>
        simp [Config.getConfigClientValue, Config.getConfig, truthy_obj,
              hv, hct, Except.map]
    | num n =>
      have hv : Config.validateConfig (.obj fs) = .ok false := by
        simp [Config.validateConfig, getField_obj, jsTypeof_obj, ha, he, hf,
              jsTypeof_num]
      have hct : Config.clientThrows (.obj fs) = false := by
        simp [Config.clientThrows, fieldD, hf, isNull]
      refine ⟨?_, fun _ => Or.inr ?_⟩ <;>
        simp [Config.getConfigClientValue, Config.getConfig, truthy_obj,
              hv, hct, Except.map]
    | str s =>
      have hv : Config.validateConfig (.obj fs) = .ok false := by
        simp [Config.validateConfig, getField_obj, jsTypeof_obj, ha, he, hf,
              jsTypeof_str]
      have hct : Config.clientThrows (.obj fs) = false := by
        simp [Config.clientThrows, fieldD, hf, isNull]
      refine ⟨?_, fun _ => Or.inr ?_⟩ <;>
        simp [Config.getConfigClientValue, Config.getConfig, truthy_obj,
              hv, hct, Except.map]

/-- C2 (witness for the amended theorem): the `null` binding does not meet
the throw condition, and the accessor returns a non-throwing result on it. -/
theorem getConfig_throw_characterization_witness :
    Config.getConfigClientValue JSValue.null = .ok JSValue.null ∨
    Config.getConfigClientValue JSValue.null = .ok Config.DEFAULT_CONFIG :=
  (getConfig_throw_characterization JSValue.null).2 rfl
